import Mathlib

/-!
Shallow embedding of the real-time synchronization core of the Flipswitch Go
SDK (SSE streaming client, event decoding/dispatch, listener registry, and
polling fallback controller), with theorems checking the natural-language
specification against the code.

Sources embedded:
- the SSE client (`SseClient`: `Connect`, `connectLoop`, `connect`,
  `handleEvent`, `scheduleReconnect`, `Close`, `GetStatus`);
- the provider's listener handling (`handleFlagChange`,
  `RemoveFlagChangeListener`);
- the polling fallback controller, modelled from the spec where noted.

Go `time.Duration` values are modelled as natural numbers of nanoseconds.
-/

namespace Flipswitch

/-- ConnectionStatus (types.go): the SSE connection status enumeration. -/
inductive ConnectionStatus
  | connecting
  | connected
  | disconnected
  | error
deriving DecidableEq

/-- FlagChangeEvent (types.go): a flag change event received via SSE.
An empty `flagKey` means bulk invalidation. -/
structure FlagChangeEvent where
  flagKey : String
  timestamp : String
deriving DecidableEq

/-- minRetryDelay = 1 * time.Second, in nanoseconds. -/
def minRetryDelay : Nat := 1000000000

/-- maxRetryDelay = 30 * time.Second, in nanoseconds. -/
def maxRetryDelay : Nat := 30000000000

/-- The lock-guarded mutable state of `SseClient`: `status`, `retryDelay`,
`closed`. -/
structure SseState where
  status : ConnectionStatus
  retryDelay : Nat
  closed : Bool
deriving DecidableEq

/-- The state a fresh client has after `NewSseClient`: status Disconnected,
retryDelay = minRetryDelay, not closed. -/
def initialSseState : SseState :=
  { status := .disconnected, retryDelay := minRetryDelay, closed := false }

/-- The doubling step at the end of `scheduleReconnect`:
`if retryDelay < maxRetryDelay { retryDelay *= 2; if retryDelay > maxRetryDelay
{ retryDelay = maxRetryDelay } }`. -/
def nextRetryDelay (d : Nat) : Nat :=
  if d < maxRetryDelay then
    if d * 2 > maxRetryDelay then maxRetryDelay else d * 2
  else d

/-- Result of one `scheduleReconnect` call: the new client state and whether
the full `retryDelay` wait elapsed (the `time.After(delay)` arm of the select
fired, so the caller proceeds to another connection attempt). -/
structure ReconnectResult where
  state : SseState
  waitedFullDelay : Bool
deriving DecidableEq

/-- scheduleReconnect: returns immediately if `closed`; otherwise waits on a
select between `time.After(retryDelay)` and `ctx.Done()`.  The parameter
`canceledDuringWait` says the context was cancelled (by `Close`) before the
delay elapsed, in which case the function returns without doubling.  On a full
wait, `retryDelay` is doubled (capped) for the next failure. -/
def scheduleReconnect (s : SseState) (canceledDuringWait : Bool) : ReconnectResult :=
  if s.closed then ⟨s, false⟩
  else if canceledDuringWait then ⟨s, false⟩
  else ⟨{ s with retryDelay := nextRetryDelay s.retryDelay }, true⟩

/-- One uncancelled reconnect cycle (the normal path between consecutive
failures with no intervening `Connected`). -/
def reconnectStep (s : SseState) : SseState :=
  (scheduleReconnect s false).state

/-- The delay `scheduleReconnect` waits before the (n+1)-th consecutive
reconnection attempt, counting from a freshly reset client: the current
`retryDelay` after n uncancelled reconnect cycles. -/
def delayBeforeAttempt (n : Nat) : Nat :=
  (reconnectStep^[n] initialSseState).retryDelay

/-- The `Connected` transition inside `connect()` (part_001 lines 128-133):
status becomes Connected and `retryDelay` is reset to the minimum. -/
def onConnected (s : SseState) : SseState :=
  { s with status := .connected, retryDelay := minRetryDelay }

/-- updateStatus: sets the status field (and reports it to the status
callback). -/
def updateStatus (s : SseState) (st : ConnectionStatus) : SseState :=
  { s with status := st }

/-- Close (part_001 lines 277-284): sets the one-way `closed` latch, cancels
the context, and reports `Disconnected` through `updateStatus`. -/
def close (s : SseState) : SseState :=
  updateStatus { s with closed := true } .disconnected

/-- Connect (part_001 lines 63-72): if `closed`, returns having done nothing;
otherwise spawns `go c.connectLoop()`.  The Boolean records whether a new
background connect/read/backoff task was spawned by this call.  The client
state itself is only read, never written. -/
def Connect (s : SseState) : SseState × Bool :=
  if s.closed then (s, false) else (s, true)

/-- Number of background tasks spawned by two consecutive `Connect()` calls on
a client in state `s`. -/
def connectTwiceTasks (s : SseState) : Nat :=
  let r1 := Connect s
  let r2 := Connect r1.1
  (if r1.2 then 1 else 0) + (if r2.2 then 1 else 0)

/-- The guard at the top of each `connectLoop` iteration: a connection attempt
is issued iff the client is not closed. -/
def connectLoopAttempts (s : SseState) : Bool :=
  !s.closed

/-! ### Event decoding (`handleEvent`, part_001 lines 181-229)

The `data:` payload of a frame is a JSON document.  Go's `encoding/json`
unmarshals any JSON object into the target struct, leaving absent fields at
their zero value (`""` for strings); unmarshalling fails on input that is not
a JSON object of the right shape.  A payload is therefore modelled as either
a JSON object carrying the three string fields the event structs mention
(each possibly absent), or a malformed document on which every unmarshal
fails.  The payload struct shapes (`FlagUpdatedEvent` `{flagKey, timestamp}`,
`ConfigUpdatedEvent` `{timestamp}`, `ApiKeyRotatedEvent`
`{validUntil, timestamp}`) follow spec section 6; their Go declarations are
not among the provided sources, only their uses in `handleEvent`. -/

/-- Fields of a JSON object payload that are relevant to the SSE event
structs; `none` means the field is absent from the object. -/
structure JsonObjFields where
  flagKey : Option String
  timestamp : Option String
  validUntil : Option String
deriving DecidableEq

/-- A `data:` payload: either a JSON object or a document on which
`json.Unmarshal` fails. -/
inductive SsePayload
  | obj (fields : JsonObjFields)
  | malformed
deriving DecidableEq

/-- FlagUpdatedEvent: payload struct of a `flag-updated` frame. -/
structure FlagUpdatedEvent where
  flagKey : String
  timestamp : String
deriving DecidableEq

/-- ConfigUpdatedEvent: payload struct of a `config-updated` frame. -/
structure ConfigUpdatedEvent where
  timestamp : String
deriving DecidableEq

/-- ApiKeyRotatedEvent: payload struct of an `api-key-rotated` frame. -/
structure ApiKeyRotatedEvent where
  validUntil : String
  timestamp : String
deriving DecidableEq

/-- json.Unmarshal into `FlagUpdatedEvent`. -/
def unmarshalFlagUpdated : SsePayload → Except String FlagUpdatedEvent
  | .obj f => .ok ⟨f.flagKey.getD "", f.timestamp.getD ""⟩
  | .malformed => .error "invalid character"

/-- json.Unmarshal into `ConfigUpdatedEvent`. -/
def unmarshalConfigUpdated : SsePayload → Except String ConfigUpdatedEvent
  | .obj f => .ok ⟨f.timestamp.getD ""⟩
  | .malformed => .error "invalid character"

/-- json.Unmarshal into `ApiKeyRotatedEvent`. -/
def unmarshalApiKeyRotated : SsePayload → Except String ApiKeyRotatedEvent
  | .obj f => .ok ⟨f.validUntil.getD "", f.timestamp.getD ""⟩
  | .malformed => .error "invalid character"

/-- Observable outcome of one `handleEvent` call: the event passed to the
`onFlagChange` callback (if any), whether a parse-failure diagnostic was
logged, and whether the api-key-rotation warning was logged.  `handleEvent`
touches no other client state. -/
structure HandleResult where
  emitted : Option FlagChangeEvent
  parseErrorLogged : Bool
  rotationWarningLogged : Bool
deriving DecidableEq

/-- handleEvent (part_001 lines 181-229): decodes one complete frame by event
type.  `heartbeat` is ignored; `flag-updated` emits the decoded key and
timestamp; `config-updated` emits an empty key (bulk invalidation) with the
decoded timestamp; `api-key-rotated` only logs a warning; unmarshal failures
log a diagnostic and drop the frame; unknown event types are ignored. -/
def handleEvent (eventType : String) (data : SsePayload) : HandleResult :=
  if eventType = "heartbeat" then
    ⟨none, false, false⟩
  else if eventType = "flag-updated" then
    match unmarshalFlagUpdated data with
    | .error _ => ⟨none, true, false⟩
    | .ok parsed => ⟨some ⟨parsed.flagKey, parsed.timestamp⟩, false, false⟩
  else if eventType = "config-updated" then
    match unmarshalConfigUpdated data with
    | .error _ => ⟨none, true, false⟩
    | .ok parsed => ⟨some ⟨"", parsed.timestamp⟩, false, false⟩
  else if eventType = "api-key-rotated" then
    match unmarshalApiKeyRotated data with
    | .error _ => ⟨none, true, false⟩
    | .ok _ => ⟨none, false, true⟩
  else
    ⟨none, false, false⟩

/-- The read loop (part_001 lines 138-170) handles one complete frame at a
time and then continues with the next frame; the events delivered to
`onFlagChange` over a sequence of frames are the emitted events in order. -/
def processFrames : List (String × SsePayload) → List FlagChangeEvent
  | [] => []
  | fr :: rest =>
    match (handleEvent fr.1 fr.2).emitted with
    | some ev => ev :: processFrames rest
    | none => processFrames rest

/-! ### Listener registry (`handleFlagChange`, `RemoveFlagChangeListener`,
provider.go lines 195-240) -/

/-- Outcome of invoking one listener callback: it either returns normally or
terminates abnormally (panics). -/
inductive ListenerOutcome
  | ok
  | panics (msg : String)
deriving DecidableEq

/-- A registered flag-change listener, identified for framing purposes by an
id; `run` is the callback body. -/
structure Listener where
  id : Nat
  run : FlagChangeEvent → ListenerOutcome

/-- handleFlagChange (provider.go lines 195-211): snapshots the listener list
and invokes each listener in order with the event; each invocation is wrapped
in a deferred `recover`, so a panic is caught and logged and the loop
continues.  The result records, per invocation in order, the listener id and
whether a panic was recovered; the dispatch itself always returns normally. -/
def handleFlagChange (listeners : List Listener) (e : FlagChangeEvent) :
    List (Nat × Bool) :=
  listeners.map fun l =>
    match l.run e with
    | .ok => (l.id, false)
    | .panics _ => (l.id, true)

/-- Go semantics of the comparison `&h == &handler` in
`RemoveFlagChangeListener` (provider.go line 235): `h` is the per-iteration
copy of the slice element and `handler` is the function parameter; the two
are distinct local variables, so their addresses are never equal and the
comparison is always false. -/
def addrEqLoopCopyParam : Bool := false

/-- The `for i, h := range` loop of `RemoveFlagChangeListener`: `pre` is the
prefix already scanned, `rest` the remainder; on a match the element is
spliced out and the function returns. -/
def removeListenerLoop (pre rest : List Listener) : List Listener :=
  match rest with
  | [] => pre
  | h :: t => if addrEqLoopCopyParam then pre ++ t
              else removeListenerLoop (pre ++ [h]) t

/-- RemoveFlagChangeListener (provider.go lines 229-240): scans the listener
slice for an element whose address equals the address of the `handler`
parameter and removes the first match. -/
def RemoveFlagChangeListener (listeners : List Listener)
    ( handler : Listener) : List Listener :=
  removeListenerLoop [] listeners

/-! ### Outbound request headers (`connect`, part_001 lines 104-116) -/

/-- Case-insensitive header-name equality: `net/http` canonicalizes header
keys, so two spellings of the same name address the same entry. -/
def headerKeyEq (a b : String) : Bool :=
  a.toLower = b.toLower

/-- net/http `Header.Set`: a `Header` is an (unordered) map from canonical
header name to values, and `Set` replaces whatever was stored under the key
with the single given value.  On the association-list representation this is
removal of all entries for the key followed by insertion of the new pair. -/
def headerSet (hs : List (String × String)) (k v : String) :
    List (String × String) :=
  (hs.filter fun p => !headerKeyEq p.1 k) ++ [(k, v)]

/-- Lookup of a header value by (canonicalized) name. -/
def headerGet (hs : List (String × String)) (k : String) : Option String :=
  (hs.find? fun p => headerKeyEq p.1 k).map Prod.snd

/-- Header construction in `connect` (part_001 lines 109-116): the client
first sets `X-API-Key`, `Accept` and `Cache-Control`, then applies each
caller-supplied telemetry header with `req.Header.Set`. -/
def sseRequestHeaders (apiKey : String)
    (telemetry : List (String × String)) : List (String × String) :=
  telemetry.foldl (fun hs kv => headerSet hs kv.1 kv.2)
    (headerSet
      (headerSet
        (headerSet [] "X-API-Key" apiKey)
        "Accept" "text/event-stream")
      "Cache-Control" "no-cache")

/-! ### Polling fallback controller -/

/-- Modelled from the spec: the polling fallback controller
(`handleStatusChange` / `startPollingFallback` / `stopPolling` /
`IsPollingActive`), whose implementation is not among the provided sources
(only its tests in provider_test.go and the README reference it).  Spec
section 4.2 and section 3 PollingState: `{ active : bool,
consecutiveFailures : int }`. -/
structure PollingState where
  active : Bool
  consecutiveFailures : Nat
deriving DecidableEq

/-- Configuration of the polling fallback controller: the consecutive-failure
threshold (`WithMaxSseRetries`) and the enable flag (`WithPollingFallback`). -/
structure PollingConfig where
  threshold : Nat
  enabled : Bool
deriving DecidableEq

/-- Starting or stopping of the periodic polling task, as observed by the
scheduler. -/
inductive PollingAction
  | start
  | stop
deriving DecidableEq

/-- The state the controller has before any status is observed. -/
def initialPollingState : PollingState :=
  { active := false, consecutiveFailures := 0 }

/-- Modelled from the spec (section 4.2 algorithm): each `Error` status
increments the failure counter; any status other than `Error` does not
increment it, but only `Connected` resets it to zero.  When the counter
reaches the threshold and fallback is enabled and polling is not already
active, start the periodic task (starting when already active is a no-op, so
exactly one task runs at a time).  When `Connected` is observed while active,
stop the task; stopping when not active is a no-op.  The returned list holds
the start/stop actions issued by this status observation. -/
def pollingOnStatus (cfg : PollingConfig) (s : PollingState)
    (st : ConnectionStatus) : PollingState × List PollingAction :=
  match st with
  | .error =>
      let n := s.consecutiveFailures + 1
      if cfg.enabled && decide (cfg.threshold ≤ n) && !s.active then
        ({ active := true, consecutiveFailures := n }, [.start])
      else
        ({ s with consecutiveFailures := n }, [])
  | .connected =>
      if s.active then
        ({ active := false, consecutiveFailures := 0 }, [.stop])
      else
        ({ s with consecutiveFailures := 0 }, [])
  | _ => (s, [])

/-- Folds a sequence of observed statuses through the controller, collecting
the issued start/stop actions in order. -/
def pollingRun (cfg : PollingConfig) (tr : List ConnectionStatus) :
    PollingState × List PollingAction :=
  tr.foldl (fun acc st =>
    let r := pollingOnStatus cfg acc.1 st
    (r.1, acc.2 ++ r.2)) (initialPollingState, [])

/-- IsActive after observing the trace `tr`. -/
def pollingIsActive (cfg : PollingConfig) (tr : List ConnectionStatus) : Bool :=
  (pollingRun cfg tr).1.active

/-- Number of times a periodic polling task was started over the trace. -/
def pollingStartCount (cfg : PollingConfig) (tr : List ConnectionStatus) : Nat :=
  ((pollingRun cfg tr).2.filter (· == PollingAction.start)).length

/-- Number of `Error` statuses observed since the last `Connected` status
(or since the beginning, if no `Connected` occurred). -/
def errorsSinceLastConnected (tr : List ConnectionStatus) : Nat :=
  ((tr.reverse.takeWhile fun st => st ≠ ConnectionStatus.connected).filter
    fun st => st = ConnectionStatus.error).length

/-! ## Helper lemmas -/

lemma reconnectStep_closed (s : SseState) : (reconnectStep s).closed = s.closed := by
  unfold reconnectStep scheduleReconnect
  by_cases h : s.closed <;> simp [h]

lemma iterate_reconnectStep_closed (n : Nat) :
    (reconnectStep^[n] initialSseState).closed = false := by
  induction n with
  | zero => rfl
  | succ n ih => rw [Function.iterate_succ_apply', reconnectStep_closed, ih]

lemma delayBeforeAttempt_succ (n : Nat) :
    delayBeforeAttempt (n + 1) = nextRetryDelay (delayBeforeAttempt n) := by
  unfold delayBeforeAttempt
  rw [Function.iterate_succ_apply']
  generalize h : reconnectStep^[n] initialSseState = s
  have hc : s.closed = false := by rw [← h]; exact iterate_reconnectStep_closed n
  unfold reconnectStep scheduleReconnect
  simp [hc]

lemma nextRetryDelay_min_double (a : Nat) :
    nextRetryDelay (min a maxRetryDelay) = min (a * 2) maxRetryDelay := by
  unfold nextRetryDelay maxRetryDelay
  simp only [min_def]
  split_ifs <;> omega

lemma delayBeforeAttempt_closed_form (n : Nat) :
    delayBeforeAttempt n = min (2 ^ n * minRetryDelay) maxRetryDelay := by
  induction n with
  | zero =>
    show initialSseState.retryDelay = _
    norm_num [initialSseState, minRetryDelay, maxRetryDelay]
  | succ n ih =>
    rw [delayBeforeAttempt_succ, ih, nextRetryDelay_min_double]
    congr 1
    ring

/-! ## Claims -/

/-- C3: for every run of consecutive connection failures with no intervening
`Connected`, the n-th wait before reconnecting (counting from a freshly reset
client) is `min (2^n * minRetryDelay) maxRetryDelay` nanoseconds, i.e. the
sequence 1,2,4,8,16,30,30,... seconds; each uncancelled `scheduleReconnect`
waits the full current `retryDelay` and then doubles it (capped) for the next
failure; `retryDelay` is reset to the minimum on the transition to
`Connected`; and the cap is 30 times the minimum. -/
theorem C3_backoff_sequence :
    (∀ n, delayBeforeAttempt n = min (2 ^ n * minRetryDelay) maxRetryDelay) ∧
    ((List.range 7).map delayBeforeAttempt =
      [1, 2, 4, 8, 16, 30, 30].map (· * minRetryDelay)) ∧
    (∀ s : SseState, s.closed = false →
      (scheduleReconnect s false).waitedFullDelay = true ∧
      (scheduleReconnect s false).state.retryDelay = nextRetryDelay s.retryDelay) ∧
    (∀ s : SseState, (onConnected s).retryDelay = minRetryDelay) ∧
    maxRetryDelay = 30 * minRetryDelay := by
  refine ⟨delayBeforeAttempt_closed_form, ?_, ?_, ?_, ?_⟩
  · have h := fun n => delayBeforeAttempt_closed_form n
    simp [List.range_succ, h, minRetryDelay, maxRetryDelay]
  · intro s hs
    unfold scheduleReconnect
    simp [hs]
  · intro s
    rfl
  · rfl

/-- Witness for C3 at a concrete client state. -/
theorem C3_backoff_sequence_witness :
    initialSseState.closed = false ∧
    ((scheduleReconnect initialSseState false).waitedFullDelay = true ∧
      (scheduleReconnect initialSseState false).state.retryDelay =
        nextRetryDelay initialSseState.retryDelay) :=
  ⟨rfl, C3_backoff_sequence.2.2.1 initialSseState rfl⟩

/-- C5: `Close()` is idempotent and terminal: closing twice equals closing
once; the status after `Close()` is `Disconnected`; after `Close()` neither
`Connect()` nor the connect loop issues any further attempt and
`scheduleReconnect` returns immediately; and if the backoff wait is cancelled
(by `Close()` cancelling the context) the wait returns immediately with the
state unchanged — no doubling of `retryDelay` and no further attempt. -/
theorem C5_close_idempotent_terminal :
    (∀ s, close (close s) = close s) ∧
    (∀ s, (close s).status = ConnectionStatus.disconnected) ∧
    (∀ s, (Connect (close s)).2 = false) ∧
    (∀ s, connectLoopAttempts (close s) = false) ∧
    (∀ s b, scheduleReconnect (close s) b = ⟨close s, false⟩) ∧
    (∀ s, scheduleReconnect s true = ⟨s, false⟩) := by
  refine ⟨?_, ?_, ?_, ?_, ?_, ?_⟩
  · intro s; rfl
  · intro s; rfl
  · intro s; rfl
  · intro s; rfl
  · intro s b
    unfold scheduleReconnect close updateStatus
    simp
  · intro s
    unfold scheduleReconnect
    by_cases h : s.closed <;> simp [h]

/-- C2 counterexample: on a fresh (never-closed) client, calling `Connect()`
twice spawns two background connect/read/backoff tasks, refuting the claim
that a second `Connect()` call is a no-op that spawns no additional task. -/
theorem C2_counterexample : ¬ connectTwiceTasks initialSseState ≤ 1 := by
  decide

/-- C2 amended: `Connect()` never mutates the client state, and calling it
after `Close()` is a no-op (no task is spawned); but `Connect()` is not
idempotent with respect to background tasks — every call while the client is
not closed spawns one additional connect/read/backoff task. -/
theorem C2_connect_amended :
    (∀ s, (Connect s).1 = s) ∧
    (∀ s, (Connect (close s)).2 = false) ∧
    (∀ s : SseState, s.closed = false → (Connect s).2 = true) := by
  refine ⟨?_, ?_, ?_⟩
  · intro s
    unfold Connect
    by_cases h : s.closed <;> simp [h]
  · intro s; rfl
  · intro s hs
    unfold Connect
    simp [hs]

/-- Witness for the amended C2 at a concrete client state. -/
theorem C2_connect_amended_witness :
    initialSseState.closed = false ∧ (Connect initialSseState).2 = true :=
  ⟨rfl, C2_connect_amended.2.2 initialSseState rfl⟩

lemma removeListenerLoop_id (pre rest : List Listener) :
    removeListenerLoop pre rest = pre ++ rest := by
  induction rest generalizing pre with
  | nil => simp [removeListenerLoop]
  | cons h t ih =>
    unfold removeListenerLoop addrEqLoopCopyParam
    simp [ih]

/-- C4: removing a listener by passing a callback value (the legacy
`RemoveFlagChangeListener` path) is a no-op — the comparison of the loop
variable's address against the parameter's address never matches, so the
listener collection is unchanged and every previously registered listener
still fires on subsequent dispatches. -/
theorem C4_remove_listener_noop :
    (∀ (listeners : List Listener) (h : Listener),
      RemoveFlagChangeListener listeners h = listeners) ∧
    (∀ (listeners : List Listener) (h : Listener) (e : FlagChangeEvent),
      handleFlagChange (RemoveFlagChangeListener listeners h) e =
        handleFlagChange listeners e) := by
  have key : ∀ (listeners : List Listener) (h : Listener),
      RemoveFlagChangeListener listeners h = listeners := by
    intro listeners h
    unfold RemoveFlagChangeListener
    simpa using removeListenerLoop_id [] listeners
  exact ⟨key, fun listeners h e => by rw [key]⟩

/-- C8: dispatching one event invokes every registered listener in order,
regardless of panics in earlier listeners — the id sequence of the recorded
invocations equals the id sequence of the registered listeners — and the
dispatch itself is a total function (a panic never propagates to the caller);
concretely, a panicking first listener does not prevent the second from being
invoked. -/
theorem C8_listener_isolation :
    (∀ (listeners : List Listener) (e : FlagChangeEvent),
      (handleFlagChange listeners e).map Prod.fst = listeners.map Listener.id) ∧
    (handleFlagChange
        [⟨0, fun _ => .panics "boom"⟩, ⟨1, fun _ => .ok⟩]
        ⟨"dark-mode", "2024-01-01T00:00:00Z"⟩ = [(0, true), (1, false)]) := by
  constructor
  · intro listeners e
    unfold handleFlagChange
    rw [List.map_map]
    refine List.map_congr_left ?_
    intro l _
    rcases hr : l.run e with _ | msg <;> simp [Function.comp, hr]
  · rfl

/-- C6: a `flag-updated` frame whose payload is a JSON object with `flagKey`
K and `timestamp` T is decoded and delivered to the `onFlagChange` callback
as the event `{flagKey := K, timestamp := T}`; a `config-updated` frame whose
payload carries `timestamp` T is delivered as an event with empty `flagKey`
(bulk invalidation) and timestamp T. -/
theorem C6_event_decoding :
    (∀ K T, handleEvent "flag-updated" (.obj ⟨some K, some T, none⟩) =
      ⟨some ⟨K, T⟩, false, false⟩) ∧
    (∀ T, handleEvent "config-updated" (.obj ⟨none, some T, none⟩) =
      ⟨some ⟨"", T⟩, false, false⟩) :=
  ⟨fun K T => rfl, fun T => rfl⟩

/-- Listeners invoked as a result of one decoded frame: the provider wires
`onFlagChange := provider.handleFlagChange` (provider.go line 189), which is
called exactly when `handleEvent` emits an event. -/
def listenersInvokedBySseEvent (eventType : String) (data : SsePayload)
    (listeners : List Listener) : List (Nat × Bool) :=
  match (handleEvent eventType data).emitted with
  | some ev => handleFlagChange listeners ev
  | none => []

/-- C7: an `api-key-rotated` frame, whatever its payload, produces no
`ChangeEvent`, triggers no invalidation, and invokes no registered listener;
it is reported only through a log line (the rotation warning on a decodable
payload, the parse diagnostic otherwise). -/
theorem C7_api_key_rotated_advisory :
    ∀ (data : SsePayload) (listeners : List Listener),
      (handleEvent "api-key-rotated" data).emitted = none ∧
      listenersInvokedBySseEvent "api-key-rotated" data listeners = [] ∧
      ((handleEvent "api-key-rotated" data).rotationWarningLogged = true ∨
        (handleEvent "api-key-rotated" data).parseErrorLogged = true) := by
  intro data listeners
  cases data <;>
    simp [handleEvent, listenersInvokedBySseEvent, unmarshalApiKeyRotated]

lemma processFrames_append (fs1 fs2 : List (String × SsePayload)) :
    processFrames (fs1 ++ fs2) = processFrames fs1 ++ processFrames fs2 := by
  induction fs1 with
  | nil => rfl
  | cons fr rest ih =>
    simp only [List.cons_append, processFrames]
    cases h : (handleEvent fr.1 fr.2).emitted <;> simp [h, ih]

/-- C9: a frame whose payload fails to decode is dropped without emitting any
event; for each recognized event type a parse diagnostic is logged; and
processing continues with the following frames — the events delivered over a
frame sequence containing a malformed frame are exactly those of the
surrounding frames. -/
theorem C9_malformed_payload_dropped :
    (∀ eventType, (handleEvent eventType .malformed).emitted = none) ∧
    ((handleEvent "flag-updated" .malformed).parseErrorLogged = true) ∧
    ((handleEvent "config-updated" .malformed).parseErrorLogged = true) ∧
    ((handleEvent "api-key-rotated" .malformed).parseErrorLogged = true) ∧
    (∀ fs1 fs2 eventType,
      processFrames (fs1 ++ (eventType, .malformed) :: fs2) =
        processFrames fs1 ++ processFrames fs2) := by
  have hnone : ∀ eventType, (handleEvent eventType .malformed).emitted = none := by
    intro eventType
    unfold handleEvent
    split_ifs <;>
      simp [unmarshalFlagUpdated, unmarshalConfigUpdated, unmarshalApiKeyRotated]
  refine ⟨hnone, rfl, rfl, rfl, ?_⟩
  intro fs1 fs2 eventType
  rw [processFrames_append]
  have hcons : processFrames ((eventType, SsePayload.malformed) :: fs2) =
      processFrames fs2 := by
    have h := hnone eventType
    simp [processFrames, h]
  rw [hcons]

lemma headerKeyEq_refl (k : String) : headerKeyEq k k = true := by
  simp [headerKeyEq]

lemma headerKeyEq_trans {a b c : String} (h1 : headerKeyEq a b = true)
    (h2 : headerKeyEq b c = true) : headerKeyEq a c = true := by
  simp only [headerKeyEq, decide_eq_true_eq] at *
  exact h1.trans h2

lemma find?_filter_of_imp {α : Type} (p q : α → Bool) (l : List α)
    (h : ∀ a, p a = true → q a = true) :
    (l.filter q).find? p = l.find? p := by
  induction l with
  | nil => rfl
  | cons a t ih =>
    by_cases hp : p a = true
    · rw [List.filter_cons, h a hp]
      simp [List.find?_cons, hp]
    · rw [List.filter_cons]
      by_cases hq : q a = true
      · simp only [hq, if_true]
        rw [List.find?_cons, List.find?_cons]
        simp only [hp, Bool.false_eq_true, if_false]
        simpa [hp] using ih
      · simp only [hq, Bool.false_eq_true, if_false]
        rw [List.find?_cons]
        simpa [hp] using ih

lemma headerGet_set_self (hs : List (String × String)) (k v : String) :
    headerGet (headerSet hs k v) k = some v := by
  unfold headerGet headerSet
  rw [List.find?_append]
  have hleft : ((hs.filter fun p => !headerKeyEq p.1 k).find?
      fun p => headerKeyEq p.1 k) = none := by
    rw [List.find?_eq_none]
    intro p hp
    have := List.of_mem_filter hp
    simp only [Bool.not_eq_true'] at this
    simp [this]
  rw [hleft]
  simp [List.find?_cons, headerKeyEq_refl]

lemma headerGet_set_other (hs : List (String × String)) (k' v' k : String)
    (h : headerKeyEq k' k = false) :
    headerGet (headerSet hs k' v') k = headerGet hs k := by
  unfold headerGet headerSet
  rw [List.find?_append]
  have hfilter : ((hs.filter fun p => !headerKeyEq p.1 k').find?
      fun p => headerKeyEq p.1 k) = hs.find? fun p => headerKeyEq p.1 k := by
    apply find?_filter_of_imp
    intro a ha
    simp only [Bool.not_eq_true']
    by_contra hcontra
    rw [Bool.not_eq_false] at hcontra
    have hka : headerKeyEq k a.1 = true := by
      simp only [headerKeyEq, decide_eq_true_eq] at ha ⊢
      exact ha.symm
    have hkk : headerKeyEq k k' = true := headerKeyEq_trans hka hcontra
    have hk'k : headerKeyEq k' k = true := by
      simp only [headerKeyEq, decide_eq_true_eq] at hkk ⊢
      exact hkk.symm
    rw [hk'k] at h
    simp at h
  rw [hfilter]
  cases hfind : hs.find? fun p => headerKeyEq p.1 k with
  | some p => rfl
  | none =>
    simp [List.find?_cons, h]

lemma headerGet_foldl_set_of_no_key (ts : List (String × String)) (k : String)
    (h : ∀ p ∈ ts, headerKeyEq p.1 k = false) (hs : List (String × String)) :
    headerGet (ts.foldl (fun acc kv => headerSet acc kv.1 kv.2) hs) k =
      headerGet hs k := by
  induction ts generalizing hs with
  | nil => rfl
  | cons p t ih =>
    rw [List.foldl_cons, ih (fun q hq => h q (List.mem_cons_of_mem p hq))]
    exact headerGet_set_other hs p.1 p.2 k (h p (List.mem_cons_self p t))

/-- C10: when a caller-supplied pass-through (telemetry) header has the same
name as a header the client sets itself, the caller's value wins: the
outbound stream-establishing request carries the caller's value for that
header, because `connect` applies the telemetry headers with `Header.Set`
after its own headers.  Stated generally: for any header name, the last
telemetry binding for that name determines the value sent. -/
theorem C10_telemetry_header_precedence
    (apiKey k v : String) (ts1 ts2 : List (String × String))
    (h : ∀ p ∈ ts2, headerKeyEq p.1 k = false) :
    headerGet (sseRequestHeaders apiKey (ts1 ++ (k, v) :: ts2)) k = some v := by
  unfold sseRequestHeaders
  rw [List.foldl_append, List.foldl_cons,
    headerGet_foldl_set_of_no_key ts2 k h]
  exact headerGet_set_self _ k v

/-- Witness for C10: a telemetry header named `X-API-Key` overrides the
client's own `X-API-Key` credential header. -/
theorem C10_telemetry_header_precedence_witness :
    headerGet (sseRequestHeaders "secret" [("X-API-Key", "caller-value")])
      "X-API-Key" = some "caller-value" :=
  C10_telemetry_header_precedence "secret" "X-API-Key" "caller-value" [] []
    (by simp)

lemma pollingRun_snoc (cfg : PollingConfig) (tr : List ConnectionStatus)
    (st : ConnectionStatus) :
    pollingRun cfg (tr ++ [st]) =
      ((pollingOnStatus cfg (pollingRun cfg tr).1 st).1,
        (pollingRun cfg tr).2 ++ (pollingOnStatus cfg (pollingRun cfg tr).1 st).2) := by
  unfold pollingRun
  rw [List.foldl_append]
  rfl

lemma errorsSinceLastConnected_snoc (tr : List ConnectionStatus)
    (st : ConnectionStatus) :
    errorsSinceLastConnected (tr ++ [st]) =
      if st = ConnectionStatus.connected then 0
      else if st = ConnectionStatus.error then errorsSinceLastConnected tr + 1
      else errorsSinceLastConnected tr := by
  unfold errorsSinceLastConnected
  rw [List.reverse_append]
  cases st <;>
    simp [List.takeWhile_cons, List.filter_cons]

lemma polling_invariant (cfg : PollingConfig) (hth : 1 ≤ cfg.threshold)
    (tr : List ConnectionStatus) :
    (pollingRun cfg tr).1.consecutiveFailures = errorsSinceLastConnected tr ∧
    (pollingRun cfg tr).1.active =
      (cfg.enabled && decide (cfg.threshold ≤ errorsSinceLastConnected tr)) := by
  induction tr using List.reverseRecOn with
  | nil =>
    have h0 : ¬ cfg.threshold ≤ 0 := by omega
    constructor
    · rfl
    · simp [pollingRun, initialPollingState, errorsSinceLastConnected, h0]
  | append_singleton tr st ih =>
    obtain ⟨ihf, iha⟩ := ih
    rw [pollingRun_snoc, errorsSinceLastConnected_snoc]
    cases st
    case connecting =>
      simp only [pollingOnStatus]
      exact ⟨by simpa using ihf, by simpa using iha⟩
    case disconnected =>
      simp only [pollingOnStatus]
      exact ⟨by simpa using ihf, by simpa using iha⟩
    case connected =>
      have h0 : ¬ cfg.threshold ≤ 0 := by omega
      by_cases ha : (pollingRun cfg tr).1.active = true
      · simp [pollingOnStatus, ha, h0]
      · simp only [Bool.not_eq_true] at ha
        simp [pollingOnStatus, ha, h0]
    case error =>
      simp only [pollingOnStatus, ihf]
      set E := errorsSinceLastConnected tr with hE
      by_cases hc : (cfg.enabled && decide (cfg.threshold ≤ E + 1) &&
          !(pollingRun cfg tr).1.active) = true
      · obtain ⟨⟨henabled, hled⟩, hact⟩ :
            (cfg.enabled = true ∧ decide (cfg.threshold ≤ E + 1) = true) ∧
              (!(pollingRun cfg tr).1.active) = true := by
          simpa [Bool.and_eq_true] using hc
        rw [if_pos hc]
        exact ⟨rfl, by simp [henabled, hled]⟩
      · rw [if_neg hc]
        refine ⟨rfl, ?_⟩
        show (pollingRun cfg tr).1.active =
          (cfg.enabled && decide (cfg.threshold ≤ E + 1))
        rw [iha]
        cases henabled : cfg.enabled with
        | false => simp
        | true =>
          simp only [Bool.true_and]
          rw [iha, henabled] at hc
          simp only [Bool.true_and] at hc
          by_cases hle : cfg.threshold ≤ E
          · have hle1 : cfg.threshold ≤ E + 1 := by omega
            simp [hle, hle1]
          · have hle1 : ¬ cfg.threshold ≤ E + 1 := by
              intro hcontra
              exact hc (by simp [hcontra, hle])
            simp [hle, hle1]

/-- C1 (spec-modelled polling fallback controller, threshold 3, fallback
enabled): after three consecutive `Error` statuses `IsActive()` is true and
exactly one periodic task was started; a fourth `Error` starts no second
task; a subsequent `Connected` makes `IsActive()` false and resets the
failure counter to 0; and at every reachable state the failure counter equals
the number of `Error` statuses since the last `Connected`, and `active` holds
iff that counter has reached the threshold (with fallback enabled and, by
construction of the counter, no `Connected` observed since). -/
theorem C1_polling_fallback :
    (pollingIsActive ⟨3, true⟩
      [.error, .error, .error] = true) ∧
    (pollingStartCount ⟨3, true⟩ [.error, .error, .error] = 1) ∧
    (pollingStartCount ⟨3, true⟩ [.error, .error, .error, .error] = 1) ∧
    ((pollingRun ⟨3, true⟩ [.error, .error, .error, .error, .connected]).1 =
      { active := false, consecutiveFailures := 0 }) ∧
    (∀ tr, (pollingRun ⟨3, true⟩ tr).1.consecutiveFailures =
      errorsSinceLastConnected tr) ∧
    (∀ tr, pollingIsActive ⟨3, true⟩ tr =
      decide (3 ≤ errorsSinceLastConnected tr)) := by
  refine ⟨by decide, by decide, by decide, by decide, ?_, ?_⟩
  · intro tr
    exact (polling_invariant ⟨3, true⟩ (by decide) tr).1
  · intro tr
    have h := (polling_invariant ⟨3, true⟩ (by decide) tr).2
    simpa [pollingIsActive] using h

end Flipswitch
